import Mathlib

/-!
Verification development for the DnsLibs upstream transport and proxy socket
subsystem.  The definitions below are a shallow embedding of:

  * src/net/proxied_socket.cpp            (ProxiedSocket)
  * src/upstream/include/dns/upstream/upstream.h  (Upstream, UpstreamOptions)
  * the DNS64 synthesis routine exercised by src/proxy/test/dns64_test.cpp

Durations are chrono tick counts: microseconds (Micros) are modelled as Int
(differences may be negative), milliseconds on the Upstream side as Nat
(the properties of interest are stated on non-negative tick counts, where
C++ integer division and Nat division agree).
-/

/-- Microsecond tick count (std::chrono::microseconds). -/
abbrev Micros := Int

/-- Opaque payload of an Error of SocketError; only identity matters here. -/
abbrev SocketError := Nat

/-- Opaque handle standing for an OutboundProxy pointer. -/
abbrev ProxyHandle := Nat

/-- Socket::Callbacks: a set of application callbacks.  For each callback we
record whether the function pointer is non-null (the code tests this before
invoking), and a tag modelling the identity of the callback set. -/
structure Callbacks where
  on_connected : Bool
  on_read : Bool
  on_close : Bool
  tag : Nat
deriving DecidableEq

/-- Socket::ConnectParameters: event loop, peer address, callback set and an
optional relative timeout.  Loop and peer are opaque handles. -/
structure ConnectParameters where
  loop : Nat
  peer : Nat
  callbacks : Callbacks
  timeout : Option Micros
deriving DecidableEq

/-- ProxiedSocket::FallbackInfo (proxied_socket.h): captured at connect time;
proxy is the nullable fallback-proxy slot set by the application. -/
structure FallbackInfo where
  loop : Nat
  peer : Nat
  connect_timestamp : Int
  timeout : Option Micros
  proxy : Option ProxyHandle
deriving DecidableEq

/-- State of a ProxiedSocket (proxied_socket.cpp). -/
structure ProxiedSocket where
  m_proxy : ProxyHandle
  m_proxy_id : Option Nat
  m_fallback_info : Option FallbackInfo
  m_socket_callbacks : Callbacks
deriving DecidableEq

/-- Result of the application callback on_proxy_connection_failed. -/
inductive ProxyConnectionFailedResult where
  | CloseConnection
  | Fallback (proxy : ProxyHandle)
deriving DecidableEq

/-- Callback invocations the ProxiedSocket dispatches into the application. -/
inductive AppSignal where
  | successfulProxyConn
  | proxyConnFailed (err : SocketError)
  | connected
  | read (n : Nat)
  | closed (err : Option SocketError)
deriving DecidableEq

/-- ProxiedSocket constructor: no proxy connection yet, no fallback info, and
the Socket::Callbacks member is default-constructed (all null). -/
def ProxiedSocket.mkSocket (p : ProxyHandle) : ProxiedSocket :=
  { m_proxy := p, m_proxy_id := none, m_fallback_info := none,
    m_socket_callbacks := { on_connected := false, on_read := false, on_close := false, tag := 0 } }

/-- ProxiedSocket::connect (proxied_socket.cpp lines 24-54).  It first stores
the callback set (set_callbacks), then asks the proxy to connect; proxyRes is
the result returned by m_proxy->connect.  On error that error is returned and
nothing further happens; on success the connection id is stored and a fresh
FallbackInfo is created (its fallback-proxy slot value-initialized to null),
with connect_timestamp := now. -/
def ProxiedSocket.connect (s : ProxiedSocket) (params : ConnectParameters) (now : Int)
    (proxyRes : Except SocketError Nat) : ProxiedSocket × Option SocketError :=
  let s1 := { s with m_socket_callbacks := params.callbacks }
  match proxyRes with
  | .error e => (s1, some e)
  | .ok id =>
      ({ s1 with m_proxy_id := some id,
                 m_fallback_info := some { loop := params.loop, peer := params.peer,
                                           connect_timestamp := now, timeout := params.timeout,
                                           proxy := none } }, none)

/-- ProxiedSocket::set_timeout (lines 61-67): updates the stored FallbackInfo
timeout when present, then forwards to the proxy via m_proxy_id.value(); the
value() call on an empty optional raises, modelled as none. -/
def ProxiedSocket.set_timeout (s : ProxiedSocket) (timeout : Micros) : Option ProxiedSocket :=
  let s1 :=
    match s.m_fallback_info with
    | some info => { s with m_fallback_info := some { info with timeout := some timeout } }
    | none => s
  match s1.m_proxy_id with
  | some _ => some s1
  | none => none

/-- ProxiedSocket::set_callbacks (lines 69-91): stores the callback set under
the mutex (and forwards a shim to the proxy when a connection id exists). -/
def ProxiedSocket.set_callbacks (s : ProxiedSocket) (cbx : Callbacks) : ProxiedSocket :=
  { s with m_socket_callbacks := cbx }

/-- ProxiedSocket::on_successful_proxy_connection (lines 98-101): forwards to
the application, no state change. -/
def ProxiedSocket.on_successful_proxy_connection (s : ProxiedSocket) :
    ProxiedSocket × List AppSignal :=
  (s, [AppSignal.successfulProxyConn])

/-- ProxiedSocket::on_proxy_connection_failed (lines 103-113): invokes the
application callback (whose return value r is an input here).  On
CloseConnection nothing happens; on Fallback the chosen proxy is stored into
m_fallback_info->proxy.  The C++ dereferences m_fallback_info without a null
check, so the result is none (undefined behavior) when it is null. -/
def ProxiedSocket.on_proxy_connection_failed (s : ProxiedSocket) (err : SocketError)
    (r : ProxyConnectionFailedResult) : Option (ProxiedSocket × List AppSignal) :=
  match r with
  | .CloseConnection => some (s, [AppSignal.proxyConnFailed err])
  | .Fallback p =>
      match s.m_fallback_info with
      | some info =>
          some ({ s with m_fallback_info := some { info with proxy := some p } },
                [AppSignal.proxyConnFailed err])
      | none => none

/-- ProxiedSocket::on_connected (lines 115-122): drops m_fallback_info, then
forwards to the application when its on_connected callback is non-null. -/
def ProxiedSocket.on_connected (s : ProxiedSocket) : ProxiedSocket × List AppSignal :=
  let s1 := { s with m_fallback_info := none }
  (s1, if s1.m_socket_callbacks.on_connected then [AppSignal.connected] else [])

/-- ProxiedSocket::on_read (lines 124-130): forwards the data, no state
change; n abstracts the payload. -/
def ProxiedSocket.on_read (s : ProxiedSocket) (n : Nat) : ProxiedSocket × List AppSignal :=
  (s, if s.m_socket_callbacks.on_read then [AppSignal.read n] else [])

/-- Result of dispatching one proxy event: the successor state, the callbacks
delivered to the application, whether the fallback re-connect in on_close was
performed, the timeout budget handed to that re-connect, and the return value
of connect when the event was a connect call. -/
structure StepOut where
  state : ProxiedSocket
  signals : List AppSignal
  fellBack : Bool
  reconnectTimeout : Option (Option Micros)
  connectRet : Option (Option SocketError)
deriving DecidableEq

/-- ProxiedSocket::on_close (lines 132-163).  m_fallback_info is always moved
out.  If it was non-null and held a fallback proxy: the current proxy
connection is closed (std::exchange(m_proxy_id, nullopt).value(); raises when
empty, modelled as none), m_proxy switches to the fallback proxy, and connect
is re-invoked with the current callbacks and the remaining budget
max(0, stored timeout - (now - connect_timestamp)).  If the re-connect
succeeds the original error is suppressed; otherwise the new error (and in
the no-fallback case the original one) is propagated to the application when
its on_close callback is non-null. -/
def ProxiedSocket.on_close (s : ProxiedSocket) (error : Option SocketError) (now : Int)
    (reconnectRes : Except SocketError Nat) : Option StepOut :=
  match s.m_fallback_info with
  | none =>
      some { state := s,
             signals := if s.m_socket_callbacks.on_close then [AppSignal.closed error] else [],
             fellBack := false, reconnectTimeout := none, connectRet := none }
  | some info =>
      match info.proxy with
      | none =>
          let s1 := { s with m_fallback_info := none }
          some { state := s1,
                 signals := if s1.m_socket_callbacks.on_close then [AppSignal.closed error] else [],
                 fellBack := false, reconnectTimeout := none, connectRet := none }
      | some fp =>
          match s.m_proxy_id with
          | none => none
          | some _ =>
              let s1 := { s with m_proxy_id := none, m_fallback_info := none, m_proxy := fp }
              let budget := info.timeout.map (fun t => max 0 (t - (now - info.connect_timestamp)))
              let r := s1.connect { loop := info.loop, peer := info.peer,
                                    callbacks := s1.m_socket_callbacks, timeout := budget }
                         now reconnectRes
              match r.2 with
              | none =>
                  some { state := r.1, signals := [], fellBack := true,
                         reconnectTimeout := some budget, connectRet := none }
              | some e =>
                  some { state := r.1,
                         signals := if r.1.m_socket_callbacks.on_close
                                    then [AppSignal.closed (some e)] else [],
                         fellBack := true, reconnectTimeout := some budget, connectRet := none }

/-- Proxy events driving a ProxiedSocket.  Environment-chosen data (clock
readings, proxy connect results, the application policy answer) are carried
by the event. -/
inductive Event where
  | connectEv (params : ConnectParameters) (now : Int) (proxyRes : Except SocketError Nat)
  | setTimeoutEv (t : Micros)
  | setCallbacksEv (cbx : Callbacks)
  | onSuccessfulProxyConnectionEv
  | onProxyConnectionFailedEv (err : SocketError) (r : ProxyConnectionFailedResult)
  | onConnectedEv
  | onReadEv (n : Nat)
  | onCloseEv (err : Option SocketError) (now : Int) (reconnectRes : Except SocketError Nat)

/-- Dispatch one event to the corresponding ProxiedSocket member function. -/
def ProxiedSocket.step (s : ProxiedSocket) (ev : Event) : Option StepOut :=
  match ev with
  | .connectEv params now res =>
      let r := s.connect params now res
      some { state := r.1, signals := [], fellBack := false, reconnectTimeout := none,
             connectRet := some r.2 }
  | .setTimeoutEv t =>
      (s.set_timeout t).map fun s1 =>
        { state := s1, signals := [], fellBack := false, reconnectTimeout := none,
          connectRet := none }
  | .setCallbacksEv c =>
      some { state := s.set_callbacks c, signals := [], fellBack := false,
             reconnectTimeout := none, connectRet := none }
  | .onSuccessfulProxyConnectionEv =>
      let r := s.on_successful_proxy_connection
      some { state := r.1, signals := r.2, fellBack := false, reconnectTimeout := none,
             connectRet := none }
  | .onProxyConnectionFailedEv err res =>
      (s.on_proxy_connection_failed err res).map fun r =>
        { state := r.1, signals := r.2, fellBack := false, reconnectTimeout := none,
          connectRet := none }
  | .onConnectedEv =>
      let r := s.on_connected
      some { state := r.1, signals := r.2, fellBack := false, reconnectTimeout := none,
             connectRet := none }
  | .onReadEv n =>
      let r := s.on_read n
      some { state := r.1, signals := r.2, fellBack := false, reconnectTimeout := none,
             connectRet := none }
  | .onCloseEv err now res => s.on_close err now res

/-- Run a sequence of events, threading the state and counting how many times
the fallback re-connect in on_close was performed.  none when the C++ would
have crashed. -/
def ProxiedSocket.run : ProxiedSocket → Nat → List Event → Option (ProxiedSocket × Nat)
  | s, n, [] => some (s, n)
  | s, n, ev :: rest =>
      match s.step ev with
      | none => none
      | some out => ProxiedSocket.run out.state (if out.fellBack then n + 1 else n) rest

/-- 1 when the fallback slot is armed: m_fallback_info present with a non-null
fallback proxy. -/
def slotArmed (s : ProxiedSocket) : Nat :=
  if (s.m_fallback_info.bind FallbackInfo.proxy).isSome then 1 else 0

/-- 1 when the event is a proxy-failure report answered with Fallback. -/
def evReport : Event → Nat
  | .onProxyConnectionFailedEv _ (.Fallback _) => 1
  | _ => 0

/-- Number of proxy-failure reports answered with Fallback in a trace. -/
def fallbackReports : List Event → Nat
  | [] => 0
  | ev :: rest => evReport ev + fallbackReports rest

/- ------------------------------------------------------------------ -/
/- Upstream (src/upstream/include/dns/upstream/upstream.h).           -/
/- ------------------------------------------------------------------ -/

/-- Upstream::DEFAULT_TIMEOUT (upstream.h line 82): 5000 ms. -/
def DEFAULT_TIMEOUT : Nat := 5000

/-- UpstreamOptions (upstream.h lines 42-75); durations as millisecond tick
counts, addresses as opaque data. -/
structure UpstreamOptions where
  address : String
  bootstrap : List String
  timeout : Nat
  resolved_server_ip : Option (List Nat)
  id : Int
  outbound_interface : Option (String ⊕ Nat)
  ignore_proxy_settings : Bool
deriving DecidableEq

/-- State owned by an Upstream: its options and the rolling RTT (ms). -/
structure Upstream where
  m_options : UpstreamOptions
  m_rtt : Nat
deriving DecidableEq

/-- Upstream constructor (upstream.h lines 94-100): rtt starts at zero and a
zero timeout is replaced by DEFAULT_TIMEOUT. -/
def mkUpstream (opts : UpstreamOptions) : Upstream :=
  { m_options := if opts.timeout = 0 then { opts with timeout := DEFAULT_TIMEOUT } else opts,
    m_rtt := 0 }

/-- Upstream::adjust_rtt (upstream.h lines 148-151): m_rtt := (m_rtt + elapsed) / 2. -/
def Upstream.adjust_rtt (u : Upstream) (elapsed : Nat) : Upstream :=
  { u with m_rtt := (u.m_rtt + elapsed) / 2 }

/- ------------------------------------------------------------------ -/
/- DNS64 synthesis.                                                   -/
/- ------------------------------------------------------------------ -/

/-- Error kind returned by the DNS64 synthesis on a bad Pref64 length. -/
inductive Dns64Error where
  | InvalidArgument
deriving DecidableEq

/-- Modelled from the spec: write the IPv4 octets into the byte list starting
at cursor j, skipping byte index 8 (the RFC 6052 u octet, left at 0). -/
def embedIpv4 : List Nat → List Nat → Nat → List Nat
  | res, [], _ => res
  | res, b :: rest, j =>
      if j = 8 then embedIpv4 (res.set (j + 1) b) rest (j + 2)
      else embedIpv4 (res.set j b) rest (j + 1)

/-- Modelled from the spec: dns64::synthesize_ipv4_embedded_ipv6_address
(implemented in src/proxy/dns64.cpp, which is not part of this snapshot; only
its test src/proxy/test/dns64_test.cpp is).  The prefix length in bytes must
be one of 4, 5, 6, 7, 8, 12, otherwise InvalidArgument.  The 16-byte result
is zeroed, the prefix is copied into bytes 0..len, and the four IPv4 octets
are written starting at byte offset len, skipping byte index 8. -/
def synthesize_ipv4_embedded_ipv6_address (pref64 ipv4 : List Nat) :
    Except Dns64Error (List Nat) :=
  if pref64.length = 4 ∨ pref64.length = 5 ∨ pref64.length = 6 ∨ pref64.length = 7
      ∨ pref64.length = 8 ∨ pref64.length = 12 then
    .ok (embedIpv4 (pref64 ++ List.replicate (16 - pref64.length) 0) ipv4 pref64.length)
  else
    .error .InvalidArgument

/-- Byte offsets of the result that receive the four IPv4 octets for a given
prefix length: the first four indices at or after len, excluding index 8. -/
def embedOffsets (len : Nat) : List Nat :=
  ((List.range 16).filter (fun j => decide (len ≤ j) && decide (j ≠ 8))).take 4

/- ------------------------------------------------------------------ -/
/- Concrete data for witnesses and counterexamples.                   -/
/- ------------------------------------------------------------------ -/

/-- Callback set with all application callbacks installed. -/
def cbxAll : Callbacks := { on_connected := true, on_read := true, on_close := true, tag := 1 }

/-- Trace: connect through proxy 0, proxy failure answered with fallback 7,
close triggers fallback 1; the fallback connection again reports a proxy
failure answered with fallback 8, and its close triggers fallback 2. -/
def fallbackTwiceTrace : List Event :=
  [ Event.connectEv { loop := 0, peer := 0, callbacks := cbxAll, timeout := some 100 } 0 (.ok 1),
    Event.onProxyConnectionFailedEv 5 (.Fallback 7),
    Event.onCloseEv (some 6) 10 (.ok 2),
    Event.onProxyConnectionFailedEv 5 (.Fallback 8),
    Event.onCloseEv (some 6) 20 (.ok 3) ]

/-- Final state and fallback count of fallbackTwiceTrace. -/
def fallbackTwiceRes : ProxiedSocket × Nat :=
  (ProxiedSocket.run (ProxiedSocket.mkSocket 0) 0 fallbackTwiceTrace).getD
    (ProxiedSocket.mkSocket 0, 0)

/-- Trace: successful connect, then a terminal close with no fallback chosen. -/
def closeNoFallbackTrace : List Event :=
  [ Event.connectEv { loop := 0, peer := 0, callbacks := cbxAll, timeout := none } 0 (.ok 1),
    Event.onCloseEv (some 6) 5 (.ok 99) ]

/-- Trace: connect with timeout 100 us at time 0, proxy failure answered with
fallback proxy 7, then set_timeout 50 us replacing the stored timeout. -/
def timeoutOverrideTrace : List Event :=
  [ Event.connectEv { loop := 0, peer := 0, callbacks := cbxAll, timeout := some 100 } 0 (.ok 1),
    Event.onProxyConnectionFailedEv 5 (.Fallback 7),
    Event.setTimeoutEv 50 ]

/-- State reached by timeoutOverrideTrace. -/
def timeoutOverrideState : ProxiedSocket :=
  { m_proxy := 0, m_proxy_id := some 1,
    m_fallback_info := some { loop := 0, peer := 0, connect_timestamp := 0,
                              timeout := some 50, proxy := some 7 },
    m_socket_callbacks := cbxAll }

/-- State with a live connection, fallback info present, no fallback proxy. -/
def liveState : ProxiedSocket :=
  { m_proxy := 0, m_proxy_id := some 1,
    m_fallback_info := some { loop := 0, peer := 0, connect_timestamp := 0,
                              timeout := none, proxy := none },
    m_socket_callbacks := cbxAll }

/-- Output of on_close on timeoutOverrideState with a successful re-connect. -/
def fellBackOut : StepOut :=
  (timeoutOverrideState.on_close (some 3) 10 (Except.ok 2)).getD
    { state := ProxiedSocket.mkSocket 0, signals := [], fellBack := false,
      reconnectTimeout := none, connectRet := none }

/-- Output of on_close on liveState (terminal close, no fallback). -/
def terminalCloseOut : StepOut :=
  (liveState.on_close (some 6) 5 (Except.ok 99)).getD
    { state := ProxiedSocket.mkSocket 0, signals := [], fellBack := false,
      reconnectTimeout := none, connectRet := none }

/- ------------------------------------------------------------------ -/
/- Theorems.                                                          -/
/- ------------------------------------------------------------------ -/

/-- C5: on a proxy-failure report the application callback is invoked; a
CloseConnection answer changes no state (the failure will propagate through
on_close), and a Fallback answer stores the chosen proxy in the
FallbackInfo.proxy slot and changes nothing else. -/
theorem proxy_connection_failed_behavior (s : ProxiedSocket) (err : SocketError) :
    s.on_proxy_connection_failed err .CloseConnection
      = some (s, [AppSignal.proxyConnFailed err]) ∧
    (∀ p info, s.m_fallback_info = some info →
      s.on_proxy_connection_failed err (.Fallback p)
        = some ({ s with m_fallback_info := some { info with proxy := some p } },
                [AppSignal.proxyConnFailed err])) := by
  refine ⟨rfl, ?_⟩
  intro p info h
  simp [ProxiedSocket.on_proxy_connection_failed, h]

/-- FallbackInfo stored by timeoutOverrideTrace. -/
def fbInfo50 : FallbackInfo :=
  { loop := 0, peer := 0, connect_timestamp := 0, timeout := some 50, proxy := some 7 }

/-- Witness for proxy_connection_failed_behavior at a concrete state. -/
theorem proxy_connection_failed_behavior_witness :
    timeoutOverrideState.on_proxy_connection_failed 3 .CloseConnection
      = some (timeoutOverrideState, [AppSignal.proxyConnFailed 3]) ∧
    timeoutOverrideState.on_proxy_connection_failed 3 (.Fallback 9)
      = some ({ timeoutOverrideState with
                m_fallback_info := some { fbInfo50 with proxy := some 9 } },
              [AppSignal.proxyConnFailed 3]) :=
  ⟨(proxy_connection_failed_behavior timeoutOverrideState 3).1,
   (proxy_connection_failed_behavior timeoutOverrideState 3).2 9 fbInfo50 rfl⟩

/-- C6: constructing an Upstream coerces a zero timeout to the 5000 ms
default and keeps any non-zero timeout (and every other option) unchanged;
the rolling RTT starts at zero. -/
theorem upstream_timeout_coercion (opts : UpstreamOptions) :
    (mkUpstream opts).m_options
      = { opts with timeout := if opts.timeout = 0 then DEFAULT_TIMEOUT else opts.timeout } ∧
    (mkUpstream opts).m_rtt = 0 ∧ DEFAULT_TIMEOUT = 5000 := by
  refine ⟨?_, rfl, rfl⟩
  by_cases h : opts.timeout = 0 <;> simp [mkUpstream, h]

/-- C7: adjust_rtt sets the RTT to (old + elapsed) / 2 in integer
milliseconds, which always lies between min(old, elapsed) and
max(old, elapsed). -/
theorem adjust_rtt_bounds (u : Upstream) (elapsed : Nat) :
    (u.adjust_rtt elapsed).m_rtt = (u.m_rtt + elapsed) / 2 ∧
    min u.m_rtt elapsed ≤ (u.adjust_rtt elapsed).m_rtt ∧
    (u.adjust_rtt elapsed).m_rtt ≤ max u.m_rtt elapsed := by
  have h : (u.adjust_rtt elapsed).m_rtt = (u.m_rtt + elapsed) / 2 := rfl
  refine ⟨h, ?_, ?_⟩
  · rw [h, Nat.min_def]; split <;> omega
  · rw [h, Nat.max_def]; split <;> omega

/-- C9: a prefix whose byte length is not one of 4, 5, 6, 7, 8, 12 makes the
synthesis return InvalidArgument and no address. -/
theorem synthesis_invalid_length (pref64 ipv4 : List Nat)
    (hL : ¬(pref64.length = 4 ∨ pref64.length = 5 ∨ pref64.length = 6 ∨ pref64.length = 7
        ∨ pref64.length = 8 ∨ pref64.length = 12)) :
    synthesize_ipv4_embedded_ipv6_address pref64 ipv4
      = Except.error Dns64Error.InvalidArgument := by
  simp only [synthesize_ipv4_embedded_ipv6_address, if_neg hL]

/-- Witness for synthesis_invalid_length at the length-10 prefix of the test. -/
theorem synthesis_invalid_length_witness :
    synthesize_ipv4_embedded_ipv6_address [5, 5, 5, 5, 5, 5, 5, 5, 0, 5] [1, 2, 3, 4]
      = Except.error Dns64Error.InvalidArgument :=
  synthesis_invalid_length [5, 5, 5, 5, 5, 5, 5, 5, 0, 5] [1, 2, 3, 4] (by decide)

/-- C10: when the proxy connect call fails, ProxiedSocket::connect returns
that error, and neither a proxy connection id nor fallback info appears:
m_proxy_id and m_fallback_info are exactly as before the call. -/
theorem connect_error_no_state_change (s : ProxiedSocket) (params : ConnectParameters)
    (now : Int) (e : SocketError) :
    (s.connect params now (Except.error e)).2 = some e ∧
    (s.connect params now (Except.error e)).1.m_proxy_id = s.m_proxy_id ∧
    (s.connect params now (Except.error e)).1.m_fallback_info = s.m_fallback_info :=
  ⟨rfl, rfl, rfl⟩

/-- List of length 4 is a 4-element literal. -/
theorem list_len_four {l : List Nat} (h : l.length = 4) :
    ∃ a b c d, l = [a, b, c, d] := by
  match l, h with
  | [a, b, c, d], _ => exact ⟨a, b, c, d, rfl⟩

/-- List of length 5 is a 5-element literal. -/
theorem list_len_five {l : List Nat} (h : l.length = 5) :
    ∃ a b c d e, l = [a, b, c, d, e] := by
  match l, h with
  | [a, b, c, d, e], _ => exact ⟨a, b, c, d, e, rfl⟩

/-- List of length 6 is a 6-element literal. -/
theorem list_len_six {l : List Nat} (h : l.length = 6) :
    ∃ a b c d e f, l = [a, b, c, d, e, f] := by
  match l, h with
  | [a, b, c, d, e, f], _ => exact ⟨a, b, c, d, e, f, rfl⟩

/-- List of length 7 is a 7-element literal. -/
theorem list_len_seven {l : List Nat} (h : l.length = 7) :
    ∃ a b c d e f g, l = [a, b, c, d, e, f, g] := by
  match l, h with
  | [a, b, c, d, e, f, g], _ => exact ⟨a, b, c, d, e, f, g, rfl⟩

/-- List of length 8 is an 8-element literal. -/
theorem list_len_eight {l : List Nat} (h : l.length = 8) :
    ∃ a b c d e f g k, l = [a, b, c, d, e, f, g, k] := by
  match l, h with
  | [a, b, c, d, e, f, g, k], _ => exact ⟨a, b, c, d, e, f, g, k, rfl⟩

/-- List of length 12 is a 12-element literal. -/
theorem list_len_twelve {l : List Nat} (h : l.length = 12) :
    ∃ a b c d e f g k m n o q, l = [a, b, c, d, e, f, g, k, m, n, o, q] := by
  match l, h with
  | [a, b, c, d, e, f, g, k, m, n, o, q], _ =>
      exact ⟨a, b, c, d, e, f, g, k, m, n, o, q, rfl⟩

set_option maxHeartbeats 1600000 in
/-- C8: for a prefix of legal byte length and a 4-byte IPv4 address the
synthesis returns a 16-byte result carrying the prefix in bytes 0..L, the
four IPv4 octets at the first four offsets at or after L other than index 8,
and zero everywhere else; in particular byte 8 is zero whenever the prefix
does not cover it. -/
theorem synthesis_layout (pref64 ipv4 : List Nat)
    (hL : pref64.length = 4 ∨ pref64.length = 5 ∨ pref64.length = 6 ∨ pref64.length = 7
        ∨ pref64.length = 8 ∨ pref64.length = 12)
    (hip : ipv4.length = 4) :
    ∃ r, synthesize_ipv4_embedded_ipv6_address pref64 ipv4 = Except.ok r ∧
      r.length = 16 ∧
      (∀ j, j < pref64.length → r.getD j 0 = pref64.getD j 0) ∧
      (∀ i, i < 4 → r.getD ((embedOffsets pref64.length).getD i 0) 0 = ipv4.getD i 0) ∧
      (∀ j, j < 16 → pref64.length ≤ j → j ∉ embedOffsets pref64.length → r.getD j 0 = 0) ∧
      (pref64.length ≤ 8 → r.getD 8 0 = 0) := by
  obtain ⟨a, b, c, d, rfl⟩ := list_len_four hip
  rcases hL with h | h | h | h | h | h
  · obtain ⟨p0, p1, p2, p3, rfl⟩ := list_len_four h
    refine ⟨_, rfl, rfl, ?_, ?_, ?_, fun _ => rfl⟩
    · intro j hj
      have hjn : j < 4 := hj
      interval_cases j <;> rfl
    · intro i hi
      interval_cases i <;> rfl
    · intro j hj hjl hjm
      have hjn : 4 ≤ j := hjl
      have hm : j ∉ embedOffsets 4 := hjm
      interval_cases j <;> first | rfl | exact absurd (by decide) hm
  · obtain ⟨p0, p1, p2, p3, p4, rfl⟩ := list_len_five h
    refine ⟨_, rfl, rfl, ?_, ?_, ?_, fun _ => rfl⟩
    · intro j hj
      have hjn : j < 5 := hj
      interval_cases j <;> rfl
    · intro i hi
      interval_cases i <;> rfl
    · intro j hj hjl hjm
      have hjn : 5 ≤ j := hjl
      have hm : j ∉ embedOffsets 5 := hjm
      interval_cases j <;> first | rfl | exact absurd (by decide) hm
  · obtain ⟨p0, p1, p2, p3, p4, p5, rfl⟩ := list_len_six h
    refine ⟨_, rfl, rfl, ?_, ?_, ?_, fun _ => rfl⟩
    · intro j hj
      have hjn : j < 6 := hj
      interval_cases j <;> rfl
    · intro i hi
      interval_cases i <;> rfl
    · intro j hj hjl hjm
      have hjn : 6 ≤ j := hjl
      have hm : j ∉ embedOffsets 6 := hjm
      interval_cases j <;> first | rfl | exact absurd (by decide) hm
  · obtain ⟨p0, p1, p2, p3, p4, p5, p6, rfl⟩ := list_len_seven h
    refine ⟨_, rfl, rfl, ?_, ?_, ?_, fun _ => rfl⟩
    · intro j hj
      have hjn : j < 7 := hj
      interval_cases j <;> rfl
    · intro i hi
      interval_cases i <;> rfl
    · intro j hj hjl hjm
      have hjn : 7 ≤ j := hjl
      have hm : j ∉ embedOffsets 7 := hjm
      interval_cases j <;> first | rfl | exact absurd (by decide) hm
  · obtain ⟨p0, p1, p2, p3, p4, p5, p6, p7, rfl⟩ := list_len_eight h
    refine ⟨_, rfl, rfl, ?_, ?_, ?_, fun _ => rfl⟩
    · intro j hj
      have hjn : j < 8 := hj
      interval_cases j <;> rfl
    · intro i hi
      interval_cases i <;> rfl
    · intro j hj hjl hjm
      have hjn : 8 ≤ j := hjl
      have hm : j ∉ embedOffsets 8 := hjm
      interval_cases j <;> first | rfl | exact absurd (by decide) hm
  · obtain ⟨p0, p1, p2, p3, p4, p5, p6, p7, p8, p9, p10, p11, rfl⟩ := list_len_twelve h
    refine ⟨_, rfl, rfl, ?_, ?_, ?_, fun h8 => False.elim ((by decide : ¬(12 ≤ 8)) h8)⟩
    · intro j hj
      have hjn : j < 12 := hj
      interval_cases j <;> rfl
    · intro i hi
      interval_cases i <;> rfl
    · intro j hj hjl hjm
      have hjn : 12 ≤ j := hjl
      have hm : j ∉ embedOffsets 12 := hjm
      interval_cases j <;> exact absurd (by decide) hm

/-- Witness for synthesis_layout at the literal scenario of the test: L = 5,
prefix 05 05 05 05 05, ipv4 01 02 03 04; the second conjunct is the literal
expected byte string. -/
theorem synthesis_layout_witness :
    (∃ r, synthesize_ipv4_embedded_ipv6_address [5, 5, 5, 5, 5] [1, 2, 3, 4] = Except.ok r ∧
      r.length = 16 ∧
      (∀ j, j < 5 → r.getD j 0 = [5, 5, 5, 5, 5].getD j 0) ∧
      (∀ i, i < 4 → r.getD ((embedOffsets 5).getD i 0) 0 = [1, 2, 3, 4].getD i 0) ∧
      (∀ j, j < 16 → 5 ≤ j → j ∉ embedOffsets 5 → r.getD j 0 = 0) ∧
      ((5 : Nat) ≤ 8 → r.getD 8 0 = 0)) ∧
    synthesize_ipv4_embedded_ipv6_address [5, 5, 5, 5, 5] [1, 2, 3, 4]
      = Except.ok [5, 5, 5, 5, 5, 1, 2, 3, 0, 4, 0, 0, 0, 0, 0, 0] :=
  ⟨synthesis_layout [5, 5, 5, 5, 5] [1, 2, 3, 4] (by decide) rfl, rfl⟩

/-- C4: m_fallback_info is non-null exactly between a successful connect
return and the first subsequent on_connected or terminal on_close: a
successful connect installs it, a failed connect leaves it alone,
on_connected always drops it, after on_close it is present exactly when a
fallback re-connect was performed and succeeded (a new pre-connected phase),
and no other operation changes whether it is present — so no fallback can be
initiated after the socket has connected. -/
theorem fallback_info_window (s : ProxiedSocket) :
    (∀ params now id, (s.connect params now (Except.ok id)).1.m_fallback_info
        = some { loop := params.loop, peer := params.peer, connect_timestamp := now,
                 timeout := params.timeout, proxy := none }) ∧
    (∀ params now e, (s.connect params now (Except.error e)).1.m_fallback_info
        = s.m_fallback_info) ∧
    ((s.on_connected).1.m_fallback_info = none) ∧
    (∀ err now res out, s.on_close err now res = some out →
        (out.state.m_fallback_info.isSome = true
          ↔ out.fellBack = true ∧ ∃ id, res = Except.ok id)) ∧
    (∀ t s1, s.set_timeout t = some s1 →
        s1.m_fallback_info.isSome = s.m_fallback_info.isSome) ∧
    (∀ c, (s.set_callbacks c).m_fallback_info = s.m_fallback_info) ∧
    ((s.on_successful_proxy_connection).1.m_fallback_info = s.m_fallback_info) ∧
    (∀ n, (s.on_read n).1.m_fallback_info = s.m_fallback_info) ∧
    (∀ err r out, s.on_proxy_connection_failed err r = some out →
        out.1.m_fallback_info.isSome = s.m_fallback_info.isSome) := by
  refine ⟨fun params now id => rfl, fun params now e => rfl, rfl, ?_, ?_, fun c => rfl, rfl,
    fun n => rfl, ?_⟩
  · intro err now res out h
    cases hfi : s.m_fallback_info with
    | none =>
        simp only [ProxiedSocket.on_close, hfi, Option.some.injEq] at h
        subst h
        simp [hfi]
    | some info =>
        obtain ⟨il, ip, its, ito, ipx⟩ := info
        cases ipx with
        | none =>
            simp only [ProxiedSocket.on_close, hfi, Option.some.injEq] at h
            subst h
            simp
        | some fp =>
            cases hid : s.m_proxy_id with
            | none => simp [ProxiedSocket.on_close, hfi, hid] at h
            | some pid =>
                cases res with
                | ok id =>
                    simp only [ProxiedSocket.on_close, hfi, hid, ProxiedSocket.connect,
                      Option.some.injEq] at h
                    subst h
                    simp
                | error e =>
                    simp only [ProxiedSocket.on_close, hfi, hid, ProxiedSocket.connect,
                      Option.some.injEq] at h
                    subst h
                    simp
  · intro t s1 h
    cases hfi : s.m_fallback_info with
    | none =>
        cases hid : s.m_proxy_id with
        | none => simp [ProxiedSocket.set_timeout, hfi, hid] at h
        | some pid =>
            simp only [ProxiedSocket.set_timeout, hfi, hid, Option.some.injEq] at h
            subst h
            simp [hfi]
    | some info =>
        cases hid : s.m_proxy_id with
        | none => simp [ProxiedSocket.set_timeout, hfi, hid] at h
        | some pid =>
            simp only [ProxiedSocket.set_timeout, hfi, hid, Option.some.injEq] at h
            subst h
            simp [hfi]
  · intro err r out h
    cases r with
    | CloseConnection =>
        simp only [ProxiedSocket.on_proxy_connection_failed, Option.some.injEq] at h
        subst h
        rfl
    | Fallback p =>
        cases hfi : s.m_fallback_info with
        | none => simp [ProxiedSocket.on_proxy_connection_failed, hfi] at h
        | some info =>
            simp only [ProxiedSocket.on_proxy_connection_failed, hfi, Option.some.injEq] at h
            subst h
            simp [hfi]

/-- Witness for fallback_info_window: the on_close conjunct applied to a
concrete armed state with a successful re-connect. -/
theorem fallback_info_window_witness :
    fellBackOut.state.m_fallback_info.isSome = true
      ↔ fellBackOut.fellBack = true
        ∧ ∃ id, (Except.ok 2 : Except SocketError Nat) = Except.ok id :=
  (fallback_info_window timeoutOverrideState).2.2.2.1 (some 3) 10 (Except.ok 2) fellBackOut rfl

/-- C3 (amended): m_proxy_id becomes the id returned by a successful connect
and is unchanged by a failed connect; during on_close it changes only when a
fallback re-connect is performed (new id on success, absent on failure); a
terminal on_close without fallback leaves it unchanged — still present — and
no other operation touches it. -/
theorem proxy_id_lifecycle (s : ProxiedSocket) :
    (∀ params now id, (s.connect params now (Except.ok id)).1.m_proxy_id = some id) ∧
    (∀ params now e, (s.connect params now (Except.error e)).1.m_proxy_id = s.m_proxy_id) ∧
    (∀ err now res out, s.on_close err now res = some out →
        (out.fellBack = false → out.state.m_proxy_id = s.m_proxy_id) ∧
        (∀ id, res = Except.ok id → out.fellBack = true → out.state.m_proxy_id = some id) ∧
        (∀ e, res = Except.error e → out.fellBack = true → out.state.m_proxy_id = none)) ∧
    ((s.on_connected).1.m_proxy_id = s.m_proxy_id) ∧
    (∀ t s1, s.set_timeout t = some s1 → s1.m_proxy_id = s.m_proxy_id) ∧
    (∀ c, (s.set_callbacks c).m_proxy_id = s.m_proxy_id) ∧
    ((s.on_successful_proxy_connection).1.m_proxy_id = s.m_proxy_id) ∧
    (∀ n, (s.on_read n).1.m_proxy_id = s.m_proxy_id) ∧
    (∀ err r out, s.on_proxy_connection_failed err r = some out →
        out.1.m_proxy_id = s.m_proxy_id) := by
  refine ⟨fun params now id => rfl, fun params now e => rfl, ?_, rfl, ?_, fun c => rfl, rfl,
    fun n => rfl, ?_⟩
  · intro err now res out h
    cases hfi : s.m_fallback_info with
    | none =>
        simp only [ProxiedSocket.on_close, hfi, Option.some.injEq] at h
        subst h
        refine ⟨fun _ => rfl, fun id hres hfb => by simp at hfb, fun e hres hfb => by simp at hfb⟩
    | some info =>
        obtain ⟨il, ip, its, ito, ipx⟩ := info
        cases ipx with
        | none =>
            simp only [ProxiedSocket.on_close, hfi, Option.some.injEq] at h
            subst h
            refine ⟨fun _ => rfl, fun id hres hfb => by simp at hfb,
              fun e hres hfb => by simp at hfb⟩
        | some fp =>
            cases hid : s.m_proxy_id with
            | none => simp [ProxiedSocket.on_close, hfi, hid] at h
            | some pid =>
                cases res with
                | ok id =>
                    simp only [ProxiedSocket.on_close, hfi, hid, ProxiedSocket.connect,
                      Option.some.injEq] at h
                    subst h
                    refine ⟨fun hfb => by simp at hfb, ?_, ?_⟩
                    · intro id0 hres _
                      cases hres
                      rfl
                    · intro e hres _
                      cases hres
                | error e =>
                    simp only [ProxiedSocket.on_close, hfi, hid, ProxiedSocket.connect,
                      Option.some.injEq] at h
                    subst h
                    refine ⟨fun hfb => by simp at hfb, ?_, ?_⟩
                    · intro id0 hres _
                      cases hres
                    · intro e0 hres _
                      cases hres
                      rfl
  · intro t s1 h
    cases hfi : s.m_fallback_info with
    | none =>
        cases hid : s.m_proxy_id with
        | none => simp [ProxiedSocket.set_timeout, hfi, hid] at h
        | some pid =>
            simp only [ProxiedSocket.set_timeout, hfi, hid, Option.some.injEq] at h
            subst h
            exact hid
    | some info =>
        cases hid : s.m_proxy_id with
        | none => simp [ProxiedSocket.set_timeout, hfi, hid] at h
        | some pid =>
            simp only [ProxiedSocket.set_timeout, hfi, hid, Option.some.injEq] at h
            subst h
            simp [hid]
  · intro err r out h
    cases r with
    | CloseConnection =>
        simp only [ProxiedSocket.on_proxy_connection_failed, Option.some.injEq] at h
        subst h
        rfl
    | Fallback p =>
        cases hfi : s.m_fallback_info with
        | none => simp [ProxiedSocket.on_proxy_connection_failed, hfi] at h
        | some info =>
            simp only [ProxiedSocket.on_proxy_connection_failed, hfi, Option.some.injEq] at h
            subst h
            rfl

/-- Witness for proxy_id_lifecycle: a terminal on_close (no fallback) on a
concrete live connection leaves m_proxy_id unchanged. -/
theorem proxy_id_lifecycle_witness :
    terminalCloseOut.state.m_proxy_id = liveState.m_proxy_id :=
  ((proxy_id_lifecycle liveState).2.2.1 (some 6) 5 (Except.ok 99) terminalCloseOut rfl).1 rfl

/-- C3 counterexample: after connect succeeds (id 1) and a terminal on_close
fires with no fallback, m_proxy_id is still present (some 1), not absent as
the claim states. -/
theorem terminal_close_keeps_proxy_id :
    (ProxiedSocket.run (ProxiedSocket.mkSocket 0) 0 closeNoFallbackTrace).map
        (fun r => r.1.m_proxy_id) = some (some 1) ∧
    (some 1 : Option Nat) ≠ none :=
  ⟨rfl, by decide⟩

/-- C2 (amended): when on_close fires while FallbackInfo exists with a
non-null fallback proxy (and a live connection id), the socket switches
m_proxy to the fallback proxy and re-invokes connect with remaining budget
max(0, stored_timeout - (now - connect_timestamp)), where stored_timeout is
the timeout currently held in FallbackInfo (the value passed to the original
connect unless a later set_timeout replaced it); if the re-connect succeeds
the original error is not propagated (no callback fires, a fresh
pre-connected phase starts), and if it fails the new error is propagated via
the application on_close callback. -/
theorem on_close_fallback_reconnect (s : ProxiedSocket) (err0 : Option SocketError)
    (now : Int) (res : Except SocketError Nat) (info : FallbackInfo) (fp : ProxyHandle)
    (pid : Nat) (t : Micros)
    (hfi : s.m_fallback_info = some info) (hp : info.proxy = some fp)
    (hpid : s.m_proxy_id = some pid) (ht : info.timeout = some t) :
    (s.on_close err0 now res).isSome = true ∧
    (∀ out, s.on_close err0 now res = some out →
      out.fellBack = true ∧
      out.state.m_proxy = fp ∧
      out.reconnectTimeout = some (some (max 0 (t - (now - info.connect_timestamp)))) ∧
      (∀ id, res = Except.ok id → out.signals = [] ∧ out.state.m_proxy_id = some id ∧
        out.state.m_fallback_info
          = some { loop := info.loop, peer := info.peer, connect_timestamp := now,
                   timeout := some (max 0 (t - (now - info.connect_timestamp))),
                   proxy := none }) ∧
      (∀ e, res = Except.error e →
        out.signals = (if s.m_socket_callbacks.on_close
                       then [AppSignal.closed (some e)] else []) ∧
        out.state.m_proxy_id = none ∧ out.state.m_fallback_info = none)) := by
  obtain ⟨il, ip, its, ito, ipx⟩ := info
  simp only at hp ht
  subst hp
  subst ht
  constructor
  · cases res <;> simp [ProxiedSocket.on_close, hfi, hpid, ProxiedSocket.connect]
  · intro out h
    cases res with
    | ok id =>
        simp only [ProxiedSocket.on_close, hfi, hpid, ProxiedSocket.connect,
          Option.some.injEq] at h
        subst h
        refine ⟨rfl, rfl, rfl, ?_, ?_⟩
        · intro id0 hres
          cases hres
          exact ⟨rfl, rfl, rfl⟩
        · intro e hres
          cases hres
    | error e =>
        simp only [ProxiedSocket.on_close, hfi, hpid, ProxiedSocket.connect,
          Option.some.injEq] at h
        subst h
        refine ⟨rfl, rfl, rfl, ?_, ?_⟩
        · intro id0 hres
          cases hres
        · intro e0 hres
          cases hres
          exact ⟨rfl, rfl, rfl⟩

/-- One dispatched event can arm the fallback slot only via a Fallback answer
to a proxy-failure report, and the fallback re-connect consumes an armed
slot. -/
theorem step_slot_bound (s : ProxiedSocket) (ev : Event) (out : StepOut)
    (h : s.step ev = some out) :
    (if out.fellBack then 1 else 0) + slotArmed out.state ≤ slotArmed s + evReport ev := by
  cases ev with
  | connectEv params now res =>
      simp only [ProxiedSocket.step, Option.some.injEq] at h
      subst h
      cases res <;> simp [ProxiedSocket.connect, slotArmed, evReport]
  | setTimeoutEv t =>
      cases hfi : s.m_fallback_info with
      | none =>
          cases hid : s.m_proxy_id with
          | none => simp [ProxiedSocket.step, ProxiedSocket.set_timeout, hfi, hid] at h
          | some pid =>
              simp only [ProxiedSocket.step, ProxiedSocket.set_timeout, hfi, hid,
                Option.map_some', Option.some.injEq] at h
              subst h
              simp [slotArmed, evReport]
      | some info =>
          cases hid : s.m_proxy_id with
          | none => simp [ProxiedSocket.step, ProxiedSocket.set_timeout, hfi, hid] at h
          | some pid =>
              simp only [ProxiedSocket.step, ProxiedSocket.set_timeout, hfi, hid,
                Option.map_some', Option.some.injEq] at h
              subst h
              simp [slotArmed, evReport, hfi]
  | setCallbacksEv c =>
      simp only [ProxiedSocket.step, Option.some.injEq] at h
      subst h
      simp [ProxiedSocket.set_callbacks, slotArmed, evReport]
  | onSuccessfulProxyConnectionEv =>
      simp only [ProxiedSocket.step, ProxiedSocket.on_successful_proxy_connection,
        Option.some.injEq] at h
      subst h
      simp [slotArmed, evReport]
  | onProxyConnectionFailedEv err r =>
      cases r with
      | CloseConnection =>
          simp only [ProxiedSocket.step, ProxiedSocket.on_proxy_connection_failed,
            Option.map_some', Option.some.injEq] at h
          subst h
          simp [slotArmed, evReport]
      | Fallback p =>
          cases hfi : s.m_fallback_info with
          | none =>
              simp [ProxiedSocket.step, ProxiedSocket.on_proxy_connection_failed, hfi] at h
          | some info =>
              simp only [ProxiedSocket.step, ProxiedSocket.on_proxy_connection_failed, hfi,
                Option.map_some', Option.some.injEq] at h
              subst h
              simp [slotArmed, evReport, hfi]
  | onConnectedEv =>
      simp only [ProxiedSocket.step, ProxiedSocket.on_connected, Option.some.injEq] at h
      subst h
      simp [slotArmed, evReport]
  | onReadEv n =>
      simp only [ProxiedSocket.step, ProxiedSocket.on_read, Option.some.injEq] at h
      subst h
      simp [slotArmed, evReport]
  | onCloseEv err now res =>
      cases hfi : s.m_fallback_info with
      | none =>
          simp only [ProxiedSocket.step, ProxiedSocket.on_close, hfi, Option.some.injEq] at h
          subst h
          simp [slotArmed, hfi, evReport]
      | some info =>
          obtain ⟨il, ip, its, ito, ipx⟩ := info
          cases ipx with
          | none =>
              simp only [ProxiedSocket.step, ProxiedSocket.on_close, hfi,
                Option.some.injEq] at h
              subst h
              simp [slotArmed, hfi, evReport]
          | some fp =>
              cases hid : s.m_proxy_id with
              | none => simp [ProxiedSocket.step, ProxiedSocket.on_close, hfi, hid] at h
              | some pid =>
                  cases res with
                  | ok id =>
                      simp only [ProxiedSocket.step, ProxiedSocket.on_close, hfi, hid,
                        ProxiedSocket.connect, Option.some.injEq] at h
                      subst h
                      simp [slotArmed, hfi, evReport]
                  | error e =>
                      simp only [ProxiedSocket.step, ProxiedSocket.on_close, hfi, hid,
                        ProxiedSocket.connect, Option.some.injEq] at h
                      subst h
                      simp [slotArmed, hfi, evReport]

/-- Along any event trace, the number of performed fallback re-connects plus
the armed state of the fallback slot is bounded by the initial count, the
initial armed state, and the number of Fallback answers in the trace. -/
theorem run_count_bound : ∀ (evs : List Event) (s : ProxiedSocket) (n : Nat)
    (res : ProxiedSocket × Nat), ProxiedSocket.run s n evs = some res →
    res.2 + slotArmed res.1 ≤ n + slotArmed s + fallbackReports evs := by
  intro evs
  induction evs with
  | nil =>
      intro s n res h
      simp only [ProxiedSocket.run, Option.some.injEq] at h
      subst h
      simp [fallbackReports]
  | cons ev rest ih =>
      intro s n res h
      cases hst : s.step ev with
      | none => simp [ProxiedSocket.run, hst] at h
      | some out =>
          simp only [ProxiedSocket.run, hst] at h
          have h1 := step_slot_bound s ev out hst
          have h2 := ih out.state (if out.fellBack then n + 1 else n) res h
          have h3 : fallbackReports (ev :: rest) = evReport ev + fallbackReports rest := rfl
          cases hfb : out.fellBack <;> rw [hfb] at h1 h2 <;> simp only [if_true, if_false,
            Bool.false_eq_true, ite_true, ite_false] at h1 h2 <;> omega

/-- C1 (amended): a fallback re-connect consumes the application-chosen
fallback proxy and re-arms an empty slot, so over any event sequence started
with no fallback info the number of fallback re-connects performed in
on_close never exceeds the number of proxy-failure reports the application
answered with Fallback; in particular, after a fallback has fired, a later
on_close can trigger another fallback only if the application again returned
Fallback on the new connection. -/
theorem fallback_count_le_reports (s : ProxiedSocket) (evs : List Event)
    (res : ProxiedSocket × Nat) (h0 : s.m_fallback_info = none)
    (h : ProxiedSocket.run s 0 evs = some res) :
    res.2 ≤ fallbackReports evs := by
  have h1 := run_count_bound evs s 0 res h
  have h2 : slotArmed s = 0 := by simp [slotArmed, h0]
  omega

/-- Witness for fallback_count_le_reports on a concrete trace. -/
theorem fallback_count_le_reports_witness :
    fallbackTwiceRes.2 ≤ fallbackReports fallbackTwiceTrace :=
  fallback_count_le_reports (ProxiedSocket.mkSocket 0) fallbackTwiceTrace fallbackTwiceRes
    rfl rfl

/-- C1 counterexample: on fallbackTwiceTrace — where the fallback connection
itself reports a proxy failure answered with Fallback again — the fallback
re-connect in on_close is performed twice over the lifetime of one
ProxiedSocket, so it is not at-most-once for every sequence of proxy
events. -/
theorem fallback_can_fire_twice :
    (ProxiedSocket.run (ProxiedSocket.mkSocket 0) 0 fallbackTwiceTrace).map Prod.snd
      = some 2 ∧ ¬(2 ≤ 1) :=
  ⟨rfl, by decide⟩

/-- C2 counterexample: after connect with timeout 100 at time 0 and a
set_timeout 50, the on_close fallback at time 10 re-connects with budget
max(0, 50 - 10) = 40, not max(0, 100 - (10 - 0)) = 90 as computed from the
timeout passed to the original connect. -/
theorem fallback_budget_uses_stored_timeout :
    ProxiedSocket.run (ProxiedSocket.mkSocket 0) 0 timeoutOverrideTrace
      = some (timeoutOverrideState, 0) ∧
    (timeoutOverrideState.on_close (some 6) 10 (Except.ok 2)).map StepOut.reconnectTimeout
      = some (some (some 40)) ∧
    (40 : Micros) ≠ max 0 (100 - (10 - 0)) :=
  ⟨rfl, rfl, by decide⟩

/-- Witness for on_close_fallback_reconnect at a concrete armed state. -/
theorem on_close_fallback_reconnect_witness :
    (timeoutOverrideState.on_close (some 6) 10 (Except.ok 2)).isSome = true ∧
    (∀ out, timeoutOverrideState.on_close (some 6) 10 (Except.ok 2) = some out →
      out.fellBack = true ∧
      out.state.m_proxy = 7 ∧
      out.reconnectTimeout = some (some (max 0 (50 - (10 - fbInfo50.connect_timestamp)))) ∧
      (∀ id, (Except.ok 2 : Except SocketError Nat) = Except.ok id →
        out.signals = [] ∧ out.state.m_proxy_id = some id ∧
        out.state.m_fallback_info
          = some { loop := fbInfo50.loop, peer := fbInfo50.peer, connect_timestamp := 10,
                   timeout := some (max 0 (50 - (10 - fbInfo50.connect_timestamp))),
                   proxy := none }) ∧
      (∀ e, (Except.ok 2 : Except SocketError Nat) = Except.error e →
        out.signals = (if timeoutOverrideState.m_socket_callbacks.on_close
                       then [AppSignal.closed (some e)] else []) ∧
        out.state.m_proxy_id = none ∧ out.state.m_fallback_info = none)) :=
  on_close_fallback_reconnect timeoutOverrideState (some 6) 10 (Except.ok 2) fbInfo50 7 1 50
    rfl rfl rfl rfl
